import Mathlib

/-!
Verification of the feature-selection / training / prediction workflow of the
KC house-price console program (`main.py`, `model.py`).

Numeric values are modelled as rationals.  The pandas / sklearn library calls,
whose code is not part of the repository, are modelled as explicit
deterministic functions (structure `MLLib` below).  File contents (the CSV
dataset and the append-only prediction log `data.txt`) are modelled as
explicit state (structure `World`).
-/

namespace HousePrice

/-- Python exception kinds that the modelled code can raise. -/
inductive PyErr where
  | valueError
  | indexError
  | keyError
  | fileNotFound
  | attrError
  deriving DecidableEq, Repr

/-- Characters stripped by Python `str.strip()` (the common ASCII whitespace;
Python also strips a few rarer ones, which no claim exercises). -/
def is_space (c : Char) : Bool :=
  c = ' ' ∨ c = '\t' ∨ c = '\n' ∨ c = '\r'

/-- Model of Python `str.strip()`: drop whitespace from both ends. -/
def py_strip (s : String) : String :=
  String.mk (((s.data.dropWhile is_space).reverse.dropWhile is_space).reverse)

/-- Model of Python `s.split(',')` for the one-character separator used in
`select_features`: split the character sequence at every comma.  Matches
Python: `"".split(',') == [""]`, `"a,,b".split(',') == ["a","","b"]`. -/
def split_aux : List Char → List Char → List String
  | [], acc => [String.mk acc.reverse]
  | c :: cs, acc =>
    if c = ',' then String.mk acc.reverse :: split_aux cs []
    else split_aux cs (c :: acc)

/-- Python `s.split(',')`. -/
def split_commas (s : String) : List String :=
  split_aux s.data []

/-- Numeric value of a list of decimal digit characters. -/
def digits_val (ds : List Char) : ℕ :=
  ds.foldl (fun a c => 10 * a + (c.toNat - 48)) 0

/-- Model of Python `int(s)`: strip surrounding whitespace, allow one optional
sign, then a non-empty run of decimal digits.  (Underscore digit grouping and
non-ASCII digits, which Python also accepts, are not modelled; no claim
depends on them.)  Returns `none` where `int` raises `ValueError`. -/
def pyInt? (s : String) : Option ℤ :=
  let digits : List Char → Option ℤ := fun ds =>
    if ds ≠ [] ∧ ds.all Char.isDigit then some (digits_val ds) else none
  match (py_strip s).data with
  | '+' :: ds => digits ds
  | '-' :: ds => (digits ds).map (fun n => -n)
  | ds => digits ds

/-- Source `model.py` line 82, `[int(x.strip()) for x in user_input.split(',')]`:
tokens are evaluated left to right and the first unparsable one raises
`ValueError` (`int` itself strips, so the inner `.strip()` is subsumed by
`pyInt?`). -/
def int_list : List String → Except PyErr (List ℤ)
  | [] => .ok []
  | tk :: rest =>
    match pyInt? tk with
    | none => .error PyErr.valueError
    | some v => (int_list rest).map (fun l => v :: l)

/-- The guard `1 <= i <= len(available)` of `model.py` line 83. -/
def in_range (n : ℕ) (i : ℤ) : Bool :=
  decide (1 ≤ i ∧ i ≤ (n : ℤ))

/-- The class constant `HousePriceModel.DEFAULT_FEATURES` (`model.py` lines 11-14). -/
def DEFAULT_FEATURES : List String :=
  ["bedrooms", "bathrooms", "sqft_living", "sqft_lot", "floors",
   "waterfront", "view", "condition", "grade", "yr_built"]

/-- Body of the non-empty branch of `HousePriceModel.select_features`
(`model.py` lines 81-92): parse all tokens (any `ValueError` is caught and
yields the defaults), keep in-range indices in order (the range guard makes
the `available[i - 1]` lookup total, so `IndexError` can never actually
fire), and fall back to the defaults when no index survives. -/
def select_features_core (available : List String) (user_input : String) : List String :=
  match int_list (split_commas user_input) with
  | .error _ => DEFAULT_FEATURES
  | .ok indices =>
    let selected := indices.filterMap (fun i =>
      if in_range available.length i then available[(i - 1).toNat]? else none)
    if selected = [] then DEFAULT_FEATURES else selected

/-- Spec-side token parsing for the refinement claim: `some` exactly when
every token parses as an integer. -/
def all_ints? : List String → Option (List ℤ)
  | [] => some []
  | tk :: rest =>
    match pyInt? tk with
    | none => none
    | some v => (all_ints? rest).map (fun l => v :: l)

/-- Written from the spec's words (section 4.2), for the refinement claim C2:
parse each token as an integer index; a parse failure on any token falls back
to the default set entirely; indices outside `[1, N]` are silently dropped;
an empty surviving set falls back to the default set. -/
def spec_select_features (available : List String) (input : String) : List String :=
  match all_ints? (split_commas input) with
  | none => DEFAULT_FEATURES
  | some idxs =>
    let kept := idxs.filter (fun i => in_range available.length i)
    if kept = [] then DEFAULT_FEATURES
    else kept.map (fun i => (available[(i - 1).toNat]?).getD "")

/-- The in-memory dataset: a pandas `DataFrame` modelled by its column names
in order, the subset of columns whose dtype is numeric
(`select_dtypes(include='number')`), and the (rational-valued) data of each
column. -/
structure Table where
  colNames : List String
  numericCols : List String
  col : String → List ℚ

/-- The mutable fields of a `HousePriceModel` instance (`model.py` lines
16-23); the fitted `LinearRegression` object is modelled abstractly as its
parameter list. -/
structure HouseState where
  df : Option Table
  features : List String
  model : Option (List ℚ)
  r2 : Option ℚ
  is_trained : Bool

/-- The state produced by `HousePriceModel.__init__` (the prediction log file
is external state, see `World`). -/
def init_state : HouseState :=
  { df := none, features := DEFAULT_FEATURES, model := none, r2 := none,
    is_trained := false }

/-- The file system seen by the program: the CSV dataset at its fixed path
(`none` when the file is missing or unreadable) and the lines of the
append-only log file `data.txt`.  `reads` instruments how many times
`pd.read_csv` has successfully executed. -/
structure World where
  csv : Option Table
  log : List String
  reads : ℕ

/-- The train/holdout partition returned by
`sklearn.model_selection.train_test_split`. -/
structure SplitData where
  X_train : List (List ℚ)
  X_test : List (List ℚ)
  y_train : List ℚ
  y_test : List ℚ

/-- Modelled from the spec: the sklearn calls used by `train_model` and
`predict_price` (`train_test_split`, `LinearRegression.fit`,
`LinearRegression.predict`, `r2_score`).  Their code is not part of the
repository; per the spec they are deterministic functions of the shown
arguments (the split is keyed by the explicit `random_state` seed), which the
shallow embedding captures by making them fields of this structure. -/
structure MLLib where
  train_test_split : List (List ℚ) → List ℚ → ℚ → ℕ → SplitData
  fit : List (List ℚ) → List ℚ → List ℚ
  predict : List ℚ → List (List ℚ) → List ℚ
  r2_score : List ℚ → List ℚ → ℚ

/-- A concrete `MLLib` used to instantiate witnesses. -/
def zeroLib : MLLib :=
  { train_test_split := fun X y _ _ => ⟨X, [], y, []⟩,
    fit := fun _ _ => [],
    predict := fun _ rows => rows.map (fun _ => 0),
    r2_score := fun _ _ => 0 }

/-- Model of `HousePriceModel.load_dataset` (`model.py` lines 28-31): unconditionally
re-read the CSV (`FileNotFoundError` when the file is missing) and overwrite
`self.df`. -/
def load_dataset (s : HouseState) (w : World) :
    Except PyErr (Table × HouseState × World) :=
  match w.csv with
  | none => .error PyErr.fileNotFound
  | some t => .ok (t, { s with df := some t }, { w with reads := w.reads + 1 })

/-- The lazy-load guard `if self.df is None: self.load_dataset()` shared by
`display_dataset_info`, `get_numeric_columns`, and `train_model`. -/
def df_or_load (s : HouseState) (w : World) :
    Except PyErr (Table × HouseState × World) :=
  match s.df with
  | some t => .ok (t, s, w)
  | none => load_dataset s w

/-- Model of `HousePriceModel.display_dataset_info` (`model.py` lines 33-49): lazily
load, then print (printing is not modelled). -/
def display_dataset_info (s : HouseState) (w : World) :
    Except PyErr (HouseState × World) :=
  (df_or_load s w).map (fun x => (x.2.1, x.2.2))

/-- The numeric columns offered for selection (`model.py` line 59): dtype
numeric, excluding `id`, `date`, and `price`. -/
def numeric_of (t : Table) : List String :=
  t.numericCols.filter (fun c => !(c == "id" || c == "date" || c == "price"))

/-- Model of `HousePriceModel.get_numeric_columns` (`model.py` lines 54-59). -/
def get_numeric_columns (s : HouseState) (w : World) :
    Except PyErr (List String × HouseState × World) :=
  (df_or_load s w).map (fun x => (numeric_of x.1, x.2.1, x.2.2))

/-- Model of `HousePriceModel.select_features` (`model.py` lines 61-95): list the
available numeric columns (triggering a lazy load that can raise), read the
user's line (`raw`, stripped on read), take the defaults on empty input and
`select_features_core` otherwise, and finally set `is_trained = False`
unconditionally. -/
def select_features (s : HouseState) (w : World) (raw : String) :
    Except PyErr (HouseState × World) :=
  (get_numeric_columns s w).map (fun x =>
    let user_input := py_strip raw
    let feats := if user_input = "" then DEFAULT_FEATURES
                 else select_features_core x.1 user_input
    ({ x.2.1 with features := feats, is_trained := false }, x.2.2))

/-- The split/fit/score pipeline of `train_model` (`model.py` lines 105-116)
on a loaded table: `X = df[features]` raises `KeyError` on a missing column
(so does `y = df['price']` when `price` is absent), `fit` raises `ValueError`
when a selected column is not numeric, and otherwise the split, the fitted
parameters, and the holdout R-squared are computed by the library. -/
def train_split_score (lib : MLLib) (tsz : ℚ) (seed : ℕ) (t : Table)
    (features : List String) : Except PyErr (SplitData × List ℚ × ℚ) :=
  if ¬ features.all (fun f => t.colNames.contains f) then .error PyErr.keyError
  else if ¬ t.colNames.contains "price" then .error PyErr.keyError
  else if ¬ features.all (fun f => t.numericCols.contains f) then .error PyErr.valueError
  else
    let X := features.map t.col
    let y := t.col "price"
    let sp := lib.train_test_split X y tsz seed
    let m := lib.fit sp.X_train sp.y_train
    let yp := lib.predict m sp.X_test
    .ok (sp, m, lib.r2_score sp.y_test yp)

/-- Model of `HousePriceModel.train_model` (`model.py` lines 100-119) with its default
arguments `test_size=0.2`, `random_state=42` supplied by the caller. -/
def train_model (lib : MLLib) (tsz : ℚ) (seed : ℕ) (s : HouseState) (w : World) :
    Except PyErr (HouseState × World) :=
  (df_or_load s w).bind (fun x =>
    (train_split_score lib tsz seed x.1 x.2.1.features).map (fun r =>
      ({ x.2.1 with model := some r.2.1, r2 := some r.2.2, is_trained := true },
       x.2.2)))

/-- The observable outcome C8 is about: the train/holdout split and the
R-squared score that a run of `train_model` produces from a given session
state and file system. -/
def train_outcome (lib : MLLib) (tsz : ℚ) (seed : ℕ) (s : HouseState) (w : World) :
    Except PyErr (SplitData × ℚ) :=
  (df_or_load s w).bind (fun x =>
    (train_split_score lib tsz seed x.1 x.2.1.features).map (fun r => (r.1, r.2.2)))

/-- One assignment `values[feat] = val` into a Python dict, modelled as an
insertion-ordered association list: an existing key keeps its position and
gets the new value, a new key is appended. -/
def dict_insert (d : List (String × ℚ)) (k : String) (v : ℚ) : List (String × ℚ) :=
  if d.any (fun p => p.1 == k) then
    d.map (fun p => if p.1 == k then (k, v) else p)
  else d ++ [(k, v)]

/-- The `values` dict built by the prompt loop of `predict_price`
(`model.py` lines 144-152): one assignment per entry of `self.features`, in
order; `vals` gives the numeric value the user eventually supplies for each
feature name (the indefinite re-prompt loop always terminates with a valid
number, per the spec). -/
def build_values (features : List String) (vals : String → ℚ) : List (String × ℚ) :=
  features.foldl (fun d f => dict_insert d f (vals f)) []

/-- Insert a thousands separator after every third digit, processing the
digit characters least-significant first. -/
def group_aux : List Char → ℕ → List Char
  | [], _ => []
  | c :: cs, 0 => c :: group_aux cs 1
  | c :: cs, 1 => c :: group_aux cs 2
  | c :: cs, _ =>
    match cs with
    | [] => [c]
    | _ :: _ => c :: ',' :: group_aux cs 0

/-- Decimal digits of `n` with a comma between each group of three. -/
def nat_commas (n : ℕ) : String :=
  String.mk ((group_aux (toString n).data.reverse 0).reverse)

/-- Modelled from the spec: Python's `f"{x:,.2f}"` float format used for the
predicted price — thousands separators and two decimals.  (Rounding of the
second decimal uses round-to-nearest; no claim inspects the rounding mode.) -/
def fmtUSD (q : ℚ) : String :=
  let cents : ℤ := round (q * 100)
  let sign := if cents < 0 then "-" else ""
  let a := cents.natAbs
  let frac := a % 100
  sign ++ nat_commas (a / 100) ++ "." ++
    (if frac < 10 then "0" ++ toString frac else toString frac)

/-- Digits of the fractional part `x ∈ [0, 1)`, up to `k` of them. -/
def frac_digits : ℚ → ℕ → List Char
  | _, 0 => []
  | x, k + 1 =>
    if x = 0 then []
    else
      let y := x * 10
      let d := (⌊y⌋).toNat % 10
      Char.ofNat (48 + d) :: frac_digits (y - ⌊y⌋) k

/-- Modelled from the spec: Python's `f"{v}"` rendering of the float feature
values written into a log line (every float has a terminating decimal
expansion; 17 digits suffice). -/
def fmt_val (q : ℚ) : String :=
  let sign := if q < 0 then "-" else ""
  let a := |q|
  let ip := (⌊a⌋).toNat
  let fr := frac_digits (a - ⌊a⌋) 17
  sign ++ toString ip ++ "." ++ (if fr = [] then "0" else String.mk fr)

/-- The joined pairs `", ".join(f"{k}={v}" for k, v in input_values.items())`
of `model.py` line 170. -/
def features_str (input_values : List (String × ℚ)) : String :=
  String.intercalate ", " (input_values.map (fun kv => kv.1 ++ "=" ++ fmt_val kv.2))

/-- The log line written by `save_prediction` (`model.py` line 171); the
timestamp string is the `datetime.now()` value, supplied by the caller. -/
def pred_line (ts : String) (input_values : List (String × ℚ)) (price : ℚ) : String :=
  ts ++ " | " ++ features_str input_values ++ " | Predicted: $" ++ fmtUSD price ++ "\n"

/-- Model of `HousePriceModel.save_prediction` (`model.py` lines 167-174): append one
formatted line to `data.txt`, creating the file if absent, never touching
existing lines. -/
def save_prediction (ts : String) (input_values : List (String × ℚ)) (price : ℚ)
    (w : World) : World :=
  { w with log := w.log ++ [pred_line ts input_values price] }

/-- Model of `HousePriceModel.load_predictions` (`model.py` lines 176-191): the lines
read back from `data.txt` (a missing file behaves like an empty one — "no
predictions recorded yet"). -/
def load_predictions (w : World) : List String :=
  w.log

/-- Model of `HousePriceModel.predict_price` (`model.py` lines 133-162): a no-op
returning `None` while untrained; otherwise collect one value per feature
into the `values` dict, build the single-row frame in dict order, run the
fitted model (`[0]` on an empty result is an `IndexError`; `None.predict`
would be an attribute error), print, and append to the log.  `ts` is the
`datetime.now()` timestamp used by `save_prediction`. -/
def predict_price (lib : MLLib) (vals : String → ℚ) (ts : String)
    (s : HouseState) (w : World) :
    Except PyErr (Option ℚ × HouseState × World) :=
  if s.is_trained = false then .ok (none, s, w)
  else
    match s.model with
    | none => .error PyErr.attrError
    | some m =>
      let values := build_values s.features vals
      match lib.predict m [values.map (fun p => p.2)] with
      | [] => .error PyErr.indexError
      | p :: _ => .ok (some p, s, save_prediction ts values p w)

/-- One user interaction with the menu of `main.py`: the choice the user
types, together with the further console input that the chosen action
consumes (`selectF` carries the selection line, `predictF` the per-feature
values and the wall-clock timestamp of the prediction). -/
inductive Choice where
  | info
  | selectF (raw : String)
  | trainF
  | predictF (vals : String → ℚ) (ts : String)
  | history
  | exitF
  | invalid (entry : String)

/-- The dispatch of one menu iteration (`main.py` lines 27-48).  Choice 5
only prints the log and choice `invalid` only prints a warning, so both leave
the state unchanged. -/
def run_action (lib : MLLib) (c : Choice) (s : HouseState) (w : World) :
    Except PyErr (HouseState × World) :=
  match c with
  | .info => display_dataset_info s w
  | .selectF raw => select_features s w raw
  | .trainF => train_model lib (1 / 5 : ℚ) 42 s w
  | .predictF vals ts => (predict_price lib vals ts s w).map (fun x => x.2)
  | .history => .ok (s, w)
  | .exitF => .ok (s, w)
  | .invalid _ => .ok (s, w)

/-- The `while True` menu loop of `main.py` (lines 23-48), run on a finite
script of user interactions: choice 6 breaks out of the loop; the body has no
`try`/`except`, so an exception raised by any action propagates out of `main`
(the `.error` result) and the remaining script is never processed. -/
def runMain (lib : MLLib) : List Choice → HouseState → World →
    Except PyErr (HouseState × World)
  | [], s, w => .ok (s, w)
  | c :: rest, s, w =>
    match c with
    | .exitF => .ok (s, w)
    | c => (run_action lib c s w).bind (fun x => runMain lib rest x.1 x.2)

theorem int_list_ok_of : ∀ (toks : List String) (l : List ℤ),
    all_ints? toks = some l → int_list toks = .ok l := by
  intro toks
  induction toks with
  | nil =>
    intro l h
    simp [all_ints?] at h
    simp [int_list, ← h]
  | cons tk rest ih =>
    intro l h
    simp only [all_ints?] at h
    simp only [int_list]
    cases hpk : pyInt? tk with
    | none => rw [hpk] at h; simp at h
    | some v =>
      rw [hpk] at h
      simp only [Option.map_eq_some'] at h
      obtain ⟨l0, hl0, hcons⟩ := h
      rw [ih l0 hl0]
      simp [Except.map, ← hcons]

theorem int_list_err_of : ∀ (toks : List String),
    all_ints? toks = none → int_list toks = .error PyErr.valueError := by
  intro toks
  induction toks with
  | nil => intro h; simp [all_ints?] at h
  | cons tk rest ih =>
    intro h
    simp only [all_ints?] at h
    simp only [int_list]
    cases hpk : pyInt? tk with
    | none => simp
    | some v =>
      rw [hpk] at h
      simp only [Option.map_eq_none'] at h
      rw [ih h]
      simp [Except.map]

theorem in_range_lt (available : List String) (i : ℤ)
    (h : in_range available.length i = true) :
    (i - 1).toNat < available.length := by
  simp only [in_range, decide_eq_true_eq] at h
  omega

theorem filterMap_in_range (available : List String) (l : List ℤ) :
    l.filterMap (fun i =>
        if in_range available.length i then available[(i - 1).toNat]? else none)
      = (l.filter (fun i => in_range available.length i)).map
          (fun i => (available[(i - 1).toNat]?).getD "") := by
  induction l with
  | nil => rfl
  | cons i rest ih =>
    by_cases hg : in_range available.length i = true
    · have hlt := in_range_lt available i hg
      rw [List.filterMap_cons_some (b := available[(i - 1).toNat])
            (by rw [if_pos hg]; exact List.getElem?_eq_getElem hlt),
          List.filter_cons_of_pos hg, List.map_cons, ih,
          List.getElem?_eq_getElem hlt]
      rfl
    · rw [List.filterMap_cons_none (by rw [if_neg hg]),
          List.filter_cons_of_neg hg, ih]

/-- C1 counterexample: with three available numeric columns, the input
`"1,99"` consists only of integer tokens, `99` is out of range while `1` is
valid; `select_features` keeps the partial selection `["bedrooms"]` instead
of falling back to the default 10-feature list, so the all-or-nothing claim
is false for out-of-range tokens. -/
theorem C1_cex :
    select_features_core ["bedrooms", "bathrooms", "sqft_living"] "1,99" = ["bedrooms"]
      ∧ ["bedrooms"] ≠ DEFAULT_FEATURES :=
  ⟨rfl, by decide⟩

/-- C1 (amended): a non-numeric token anywhere makes the whole selection fall
back to the default feature list, but an out-of-range index among
otherwise-valid integer tokens is silently dropped while the in-range indices
are kept in the order given; the fallback to the defaults happens only when
no in-range index survives. -/
theorem C1_amended :
    (∀ (available : List String) (input : String),
        all_ints? (split_commas input) = none →
        select_features_core available input = DEFAULT_FEATURES)
    ∧ (∀ (available : List String) (input : String) (idxs : List ℤ),
        int_list (split_commas input) = .ok idxs →
        idxs.filter (fun i => in_range available.length i) ≠ [] →
        select_features_core available input
          = (idxs.filter (fun i => in_range available.length i)).map
              (fun i => (available[(i - 1).toNat]?).getD "")) := by
  constructor
  · intro available input h
    unfold select_features_core
    rw [int_list_err_of _ h]
  · intro available input idxs h hne
    unfold select_features_core
    rw [h]
    simp only [filterMap_in_range]
    rw [if_neg (by simpa using hne)]

/-- C1 witness: `"2,abc"` (non-numeric token among valid ones) falls back to
the defaults entirely, while `"2,99"` (out-of-range token among valid ones)
keeps the in-range part `["bathrooms"]`. -/
theorem C1_witness :
    select_features_core ["bedrooms", "bathrooms", "sqft_living"] "2,abc" = DEFAULT_FEATURES
    ∧ select_features_core ["bedrooms", "bathrooms", "sqft_living"] "2,99" = ["bathrooms"] :=
  ⟨C1_amended.1 ["bedrooms", "bathrooms", "sqft_living"] "2,abc" (by decide),
   (C1_amended.2 ["bedrooms", "bathrooms", "sqft_living"] "2,99" [2, 99] rfl
      (by decide)).trans rfl⟩

/-- C2: for every non-empty selection string the code's selection equals the
spec's description of it: each token is parsed as an integer; a parse failure
on any token makes the whole selection fall back to the default list;
out-of-range indices are silently dropped; an empty surviving set falls back
to the default list. -/
theorem C2_thm (available : List String) (input : String) (h : input ≠ "") :
    select_features_core available input = spec_select_features available input := by
  unfold select_features_core spec_select_features
  cases hall : all_ints? (split_commas input) with
  | none => rw [int_list_err_of _ hall]
  | some idxs =>
    rw [int_list_ok_of _ _ hall]
    simp only [filterMap_in_range]
    by_cases hk : idxs.filter (fun i => in_range available.length i) = []
    · rw [if_pos (by simp [hk]), if_pos hk]
    · rw [if_neg (by simpa using hk), if_neg hk]

/-- C2 witness: concrete non-empty inputs agree with the spec-side selection
function (an in-range pick, an input with an unparsable token, and an input
whose indices are all out of range). -/
theorem C2_witness :
    select_features_core ["bedrooms", "bathrooms", "sqft_living"] "3,1"
      = spec_select_features ["bedrooms", "bathrooms", "sqft_living"] "3,1"
    ∧ select_features_core ["bedrooms", "bathrooms", "sqft_living"] "1,x"
      = spec_select_features ["bedrooms", "bathrooms", "sqft_living"] "1,x"
    ∧ select_features_core ["bedrooms", "bathrooms", "sqft_living"] "7,8"
      = spec_select_features ["bedrooms", "bathrooms", "sqft_living"] "7,8" :=
  ⟨C2_thm _ "3,1" (by decide), C2_thm _ "1,x" (by decide), C2_thm _ "7,8" (by decide)⟩

/-- C3: when every token of the input parses to an index inside `[1, N]`, the
selected feature list is exactly the corresponding available column names, in
the order the indices were given. -/
theorem C3_thm (available : List String) (input : String) (idxs : List ℤ)
    (hp : int_list (split_commas input) = .ok idxs)
    (hne : idxs ≠ [])
    (hin : ∀ i ∈ idxs, in_range available.length i = true) :
    select_features_core available input
      = idxs.map (fun i => (available[(i - 1).toNat]?).getD "") := by
  have hfilter : idxs.filter (fun i => in_range available.length i) = idxs :=
    List.filter_eq_self.mpr hin
  unfold select_features_core
  rw [hp]
  simp only [filterMap_in_range, hfilter]
  rw [if_neg (by simpa using hne)]

/-- C3 witness: input `"2,1"` over three available columns selects
`["bathrooms", "bedrooms"]` — the names of columns 2 and 1, in that order. -/
theorem C3_witness :
    select_features_core ["bedrooms", "bathrooms", "sqft_living"] "2,1"
      = ([2, 1] : List ℤ).map
          (fun i => ((["bedrooms", "bathrooms", "sqft_living"] : List String)[(i - 1).toNat]?).getD "") :=
  C3_thm ["bedrooms", "bathrooms", "sqft_living"] "2,1" [2, 1] rfl (by decide) (by decide)

/-- C4: every run of `select_features` that completes (with empty, valid, or
invalid input, whether or not the feature list changed) leaves
`is_trained = False`. -/
theorem C4_thm (s : HouseState) (w : World) (raw : String) :
    match select_features s w raw with
    | .ok p => p.1.is_trained = false
    | .error _ => True := by
  unfold select_features get_numeric_columns df_or_load load_dataset
  cases s.df with
  | some t => rfl
  | none =>
    cases w.csv with
    | none => trivial
    | some t => rfl

/-- C5: calling `predict_price` while `is_trained` is false returns no
prediction (`None`), raises nothing, and leaves the session state and the log
file untouched. -/
theorem C5_thm (lib : MLLib) (vals : String → ℚ) (ts : String)
    (s : HouseState) (w : World) (h : s.is_trained = false) :
    predict_price lib vals ts s w = .ok (none, s, w) := by
  unfold predict_price
  rw [if_pos h]

/-- C5 witness: predicting on the freshly initialised (untrained) session is
a no-op that writes nothing. -/
theorem C5_witness :
    predict_price zeroLib (fun _ => 0) "2026-10-12 00:00:00" init_state ⟨none, [], 0⟩
      = .ok (none, init_state, ⟨none, [], 0⟩) :=
  C5_thm zeroLib (fun _ => 0) "2026-10-12 00:00:00" init_state ⟨none, [], 0⟩ rfl

/-- A file system with the dataset file missing. -/
def w_missing : World := ⟨none, [], 0⟩

/-- A small concrete dataset table for witnesses. -/
def tbl0 : Table :=
  { colNames := ["id", "date", "price", "bedrooms", "bathrooms", "sqft_living"],
    numericCols := ["id", "price", "bedrooms", "bathrooms", "sqft_living"],
    col := fun _ => [1, 2, 3] }

/-- A file system holding `tbl0`, not yet read, with an empty log. -/
def w0 : World := ⟨some tbl0, [], 0⟩

/-- C6 counterexample: `main` has no `try`/`except`, so with the dataset file
missing, choosing menu option 1 aborts the whole session — the run ends in a
propagated `FileNotFoundError` and the following menu choice is never
reached, contradicting "a message is surfaced and control returns to the menu
loop". -/
theorem C6_cex :
    runMain zeroLib [Choice.info, Choice.exitF] init_state w_missing
      = .error PyErr.fileNotFound := rfl

theorem runMain_cons_ne (lib : MLLib) (c : Choice) (rest : List Choice)
    (s : HouseState) (w : World) (hc : c ≠ Choice.exitF) :
    runMain lib (c :: rest) s w
      = (run_action lib c s w).bind (fun x => runMain lib rest x.1 x.2) := by
  cases c
  case exitF => exact absurd rfl hc
  all_goals rfl

/-- C6 (amended): a failure of a menu action is fatal for the whole session,
not just for that action: the menu loop has no exception handling, so the
exception propagates out of `main`, the remaining menu choices are never
processed, and the process terminates abnormally.  (Only an unrecognized menu
entry is handled with an inline warning and a return to the loop.) -/
theorem C6_amended (lib : MLLib) (c : Choice) (rest : List Choice)
    (s : HouseState) (w : World) (e : PyErr)
    (hc : c ≠ Choice.exitF)
    (h : run_action lib c s w = .error e) :
    runMain lib (c :: rest) s w = .error e := by
  rw [runMain_cons_ne lib c rest s w hc, h]
  rfl

/-- C6 witness: the missing-dataset failure of menu option 1 ends a session
that still had a pending menu choice. -/
theorem C6_witness :
    runMain zeroLib [Choice.info, Choice.history] init_state w_missing
      = .error PyErr.fileNotFound :=
  C6_amended zeroLib Choice.info [Choice.history] init_state w_missing
    PyErr.fileNotFound (by simp) rfl

/-- N predictions appended in order by `save_prediction`. -/
def append_recs (recs : List (String × List (String × ℚ) × ℚ)) (w : World) : World :=
  recs.foldl (fun w r => save_prediction r.1 r.2.1 r.2.2 w) w

theorem append_recs_log (recs : List (String × List (String × ℚ) × ℚ)) :
    ∀ w : World, (append_recs recs w).log
      = w.log ++ recs.map (fun r => pred_line r.1 r.2.1 r.2.2) := by
  induction recs with
  | nil => intro w; simp [append_recs]
  | cons r rest ih =>
    intro w
    show (append_recs rest (save_prediction r.1 r.2.1 r.2.2 w)).log = _
    rw [ih]
    simp [save_prediction]

/-- C7: starting from any log state, appending N prediction records and then
reading the history returns the old lines unchanged followed by exactly the N
new lines in append order, and each new line contains the supplied
feature-name=value pairs and the formatted predicted-price substring. -/
theorem C7_thm (w : World) (recs : List (String × List (String × ℚ) × ℚ)) :
    load_predictions (append_recs recs w)
        = load_predictions w ++ recs.map (fun r => pred_line r.1 r.2.1 r.2.2)
    ∧ (load_predictions (append_recs recs w)).length
        = (load_predictions w).length + recs.length
    ∧ ∀ r ∈ recs,
        (∃ a b, pred_line r.1 r.2.1 r.2.2 = a ++ features_str r.2.1 ++ b)
        ∧ (∃ a b, pred_line r.1 r.2.1 r.2.2
              = a ++ ("Predicted: $" ++ fmtUSD r.2.2) ++ b) := by
  refine ⟨append_recs_log recs w, ?_, ?_⟩
  · rw [load_predictions, load_predictions, append_recs_log recs w]
    simp
  · intro r _
    constructor
    · refine ⟨r.1 ++ " | ", " | Predicted: $" ++ fmtUSD r.2.2 ++ "\n", ?_⟩
      unfold pred_line
      simp only [String.append_assoc]
    · refine ⟨r.1 ++ " | " ++ features_str r.2.1 ++ " | ", "\n", ?_⟩
      unfold pred_line
      have hsplit : (" | Predicted: $" : String) = " | " ++ "Predicted: $" := rfl
      rw [hsplit]
      simp only [String.append_assoc]

/-- C7 witness: one concrete record appended to an empty log. -/
theorem C7_witness :
    load_predictions (append_recs [("2026-10-12 00:00:00", [("bedrooms", 3)], 250000)] ⟨none, [], 0⟩)
        = load_predictions ⟨none, [], 0⟩
            ++ [("2026-10-12 00:00:00", [("bedrooms", (3 : ℚ))], (250000 : ℚ))].map
                (fun r => pred_line r.1 r.2.1 r.2.2)
    ∧ (∃ a b, pred_line "2026-10-12 00:00:00" [("bedrooms", (3 : ℚ))] 250000
          = a ++ features_str [("bedrooms", (3 : ℚ))] ++ b) :=
  ⟨(C7_thm ⟨none, [], 0⟩ [("2026-10-12 00:00:00", [("bedrooms", 3)], 250000)]).1,
   ((C7_thm ⟨none, [], 0⟩ [("2026-10-12 00:00:00", [("bedrooms", 3)], 250000)]).2.2
      ("2026-10-12 00:00:00", [("bedrooms", 3)], 250000) (by simp)).1⟩

/-- C8: the split and the R-squared score produced by `train_model` depend
only on the dataset, the feature list, the test fraction, and the seed: two
sessions agreeing on dataset and features (everything else — log contents,
trained flag, cached model — may differ) produce the same train/holdout
split and the same score. -/
theorem C8_thm (lib : MLLib) (tsz : ℚ) (seed : ℕ) (s1 s2 : HouseState)
    (w1 w2 : World) (hdf : s1.df = s2.df) (hf : s1.features = s2.features)
    (hcsv : w1.csv = w2.csv) :
    train_outcome lib tsz seed s1 w1 = train_outcome lib tsz seed s2 w2
    ∧ (train_model lib tsz seed s1 w1).map (fun p => p.1.r2)
        = (train_model lib tsz seed s2 w2).map (fun p => p.1.r2) := by
  constructor
  · unfold train_outcome df_or_load load_dataset
    rw [hdf, hcsv]
    cases s2.df with
    | some t => simp [Except.bind, hf]
    | none =>
      cases w2.csv with
      | none => rfl
      | some t => simp [Except.bind, hf]
  · unfold train_model df_or_load load_dataset
    rw [hdf, hcsv]
    cases s2.df with
    | some t =>
      simp only [Except.bind, hf]
      cases train_split_score lib tsz seed t s2.features <;> rfl
    | none =>
      cases w2.csv with
      | none => rfl
      | some t =>
        simp only [Except.bind, hf]
        cases train_split_score lib tsz seed t s2.features <;> rfl

/-- C8 witness: two sessions sharing `tbl0` and the feature `["bedrooms"]`
but differing in trained flag, cached model, score, log contents, and read
count give identical split-and-score outcomes. -/
theorem C8_witness :
    train_outcome zeroLib (1 / 5) 42
        ⟨some tbl0, ["bedrooms"], none, none, false⟩ ⟨some tbl0, [], 0⟩
      = train_outcome zeroLib (1 / 5) 42
          ⟨some tbl0, ["bedrooms"], some [1], some 1, true⟩ ⟨some tbl0, ["old"], 1⟩
    ∧ (train_model zeroLib (1 / 5) 42
          ⟨some tbl0, ["bedrooms"], none, none, false⟩ ⟨some tbl0, [], 0⟩).map
            (fun p => p.1.r2)
      = (train_model zeroLib (1 / 5) 42
          ⟨some tbl0, ["bedrooms"], some [1], some 1, true⟩ ⟨some tbl0, ["old"], 1⟩).map
            (fun p => p.1.r2) :=
  C8_thm zeroLib (1 / 5) 42 _ _ _ _ rfl rfl rfl

/-- C9 counterexample: `load_dataset` has no cache guard — calling it a
second time re-reads the file (the read count goes from 1 to 2) instead of
reusing the cached table. -/
theorem C9_cex :
    ((load_dataset init_state w0).bind
        (fun x => load_dataset x.2.1 x.2.2)).map (fun y => y.2.2.reads) = .ok 2
    ∧ (load_dataset init_state w0).map (fun x => x.2.2.reads) = .ok 1 :=
  ⟨rfl, rfl⟩

/-- The per-session read invariant: a session whose cache is empty has not
read the file, and the file has been read at most once. -/
def ReadInv (s : HouseState) (w : World) : Prop :=
  (s.df = none → w.reads = 0) ∧ w.reads ≤ 1

theorem df_or_load_inv (s : HouseState) (w : World)
    (hinv : ReadInv s w) :
    ∀ x, df_or_load s w = .ok x → ReadInv x.2.1 x.2.2 := by
  intro x hx
  unfold df_or_load load_dataset at hx
  cases hdf : s.df with
  | some t =>
    rw [hdf] at hx
    cases hx
    exact hinv
  | none =>
    rw [hdf] at hx
    cases hcsv : w.csv with
    | none => rw [hcsv] at hx; cases hx
    | some t =>
      rw [hcsv] at hx
      cases hx
      have h0 : w.reads = 0 := hinv.1 hdf
      constructor
      · intro h
        exact Option.noConfusion h
      · show w.reads + 1 ≤ 1
        omega

theorem run_action_inv (lib : MLLib) (c : Choice) (s : HouseState) (w : World)
    (hinv : ReadInv s w) :
    ∀ p, run_action lib c s w = .ok p → ReadInv p.1 p.2 := by
  intro p hp
  cases c with
  | info =>
    simp only [run_action, display_dataset_info] at hp
    cases hd : df_or_load s w with
    | error e => rw [hd] at hp; simp only [Except.map] at hp; cases hp
    | ok x =>
      rw [hd] at hp
      simp only [Except.map] at hp
      cases hp
      exact df_or_load_inv s w hinv x hd
  | selectF raw =>
    simp only [run_action, select_features, get_numeric_columns] at hp
    cases hd : df_or_load s w with
    | error e => rw [hd] at hp; simp only [Except.map] at hp; cases hp
    | ok x =>
      rw [hd] at hp
      simp only [Except.map] at hp
      cases hp
      exact df_or_load_inv s w hinv x hd
  | trainF =>
    simp only [run_action, train_model] at hp
    cases hd : df_or_load s w with
    | error e => rw [hd] at hp; simp only [Except.bind] at hp; cases hp
    | ok x =>
      rw [hd] at hp
      simp only [Except.bind] at hp
      have hx := df_or_load_inv s w hinv x hd
      cases hts : train_split_score lib (1 / 5 : ℚ) 42 x.1 x.2.1.features with
      | error e => rw [hts] at hp; simp only [Except.map] at hp; cases hp
      | ok r =>
        rw [hts] at hp
        simp only [Except.map] at hp
        cases hp
        exact hx
  | predictF vals ts =>
    simp only [run_action, predict_price] at hp
    by_cases htr : s.is_trained = false
    · rw [if_pos htr] at hp
      simp only [Except.map] at hp
      cases hp
      exact hinv
    · rw [if_neg htr] at hp
      cases hm : s.model with
      | none => rw [hm] at hp; simp only [Except.map] at hp; cases hp
      | some m =>
        rw [hm] at hp
        simp only [Except.map] at hp
        cases hpr : lib.predict m [(build_values s.features vals).map (fun q => q.2)] with
        | nil => rw [hpr] at hp; simp only [Except.map] at hp; cases hp
        | cons y ys =>
          rw [hpr] at hp
          simp only [Except.map] at hp
          cases hp
          exact hinv
  | history =>
    simp only [run_action] at hp
    cases hp
    exact hinv
  | exitF =>
    simp only [run_action] at hp
    cases hp
    exact hinv
  | invalid entry =>
    simp only [run_action] at hp
    cases hp
    exact hinv

theorem runMain_inv (lib : MLLib) :
    ∀ (script : List Choice) (s : HouseState) (w : World), ReadInv s w →
      ∀ p, runMain lib script s w = .ok p → ReadInv p.1 p.2 := by
  intro script
  induction script with
  | nil =>
    intro s w hinv p hp
    cases hp
    exact hinv
  | cons c rest ih =>
    intro s w hinv p hp
    by_cases hc : c = Choice.exitF
    · subst hc
      cases hp
      exact hinv
    · rw [runMain_cons_ne lib c rest s w hc] at hp
      cases ha : run_action lib c s w with
      | error e => rw [ha] at hp; cases hp
      | ok x =>
        rw [ha] at hp
        exact ih x.1 x.2 (run_action_inv lib c s w hinv x ha) p hp

/-- C9 (amended): the cache guard lives in the callers, not in
`load_dataset` itself — `display_dataset_info`, `get_numeric_columns`, and
`train_model` read the file only when the cache is empty, so a menu-driven
session reads the dataset file at most once; a direct second call to
`load_dataset`, however, unconditionally re-reads. -/
theorem C9_amended (lib : MLLib) (script : List Choice) (w : World)
    (h : w.reads = 0) :
    match runMain lib script init_state w with
    | .ok p => p.2.reads ≤ 1
    | .error _ => True := by
  cases hr : runMain lib script init_state w with
  | error e => trivial
  | ok p =>
    exact (runMain_inv lib script init_state w ⟨fun _ => h, by omega⟩ p hr).2

/-- C9 witness: a session that shows info, selects column 1, trains on it,
and shows info again runs to completion (second conjunct: the run ends in
`.ok`) and reads the dataset file exactly once. -/
theorem C9_witness :
    (match runMain zeroLib [Choice.info, Choice.selectF "1", Choice.trainF, Choice.info]
        init_state w0 with
     | .ok p => p.2.reads ≤ 1
     | .error _ => True)
    ∧ (runMain zeroLib [Choice.info, Choice.selectF "1", Choice.trainF, Choice.info]
        init_state w0).map (fun p => p.2.reads) = .ok 1 :=
  ⟨C9_amended zeroLib [Choice.info, Choice.selectF "1", Choice.trainF, Choice.info] w0 rfl,
   rfl⟩

theorem build_values_aux (vals : String → ℚ) :
    ∀ (feats : List String) (d : List (String × ℚ)),
      (d.map Prod.fst ++ feats).Nodup →
      (feats.foldl (fun d f => dict_insert d f (vals f)) d).map Prod.fst
        = d.map Prod.fst ++ feats := by
  intro feats
  induction feats with
  | nil => intro d _; simp
  | cons f rest ih =>
    intro d h
    have hf : f ∉ d.map Prod.fst := by
      intro hmem
      rw [List.nodup_append] at h
      exact h.2.2 hmem (List.mem_cons_self f rest)
    have hany : d.any (fun p => p.1 == f) = false := by
      rw [List.any_eq_false]
      intro p hp
      simp only [beq_iff_eq]
      intro hpf
      exact hf (hpf ▸ List.mem_map_of_mem Prod.fst hp)
    have hins : dict_insert d f (vals f) = d ++ [(f, vals f)] := by
      unfold dict_insert
      rw [hany]
      rfl
    rw [List.foldl_cons, hins, ih (d ++ [(f, vals f)]) (by simpa using h)]
    simp

/-- C10: when the session's feature list has pairwise-distinct names, the
single-row input built by `predict_price` has exactly one value per feature,
keyed in the feature list's order.  The distinctness precondition is
necessary: the duplicated list `["bedrooms", "bedrooms"]` is reachable by
entering `"1,1"` during selection, and the name-keyed dict then collapses the
duplicate, leaving fewer columns than features. -/
theorem C10_thm :
    (∀ (feats : List String) (vals : String → ℚ), feats.Nodup →
        (build_values feats vals).map Prod.fst = feats)
    ∧ select_features_core ["bedrooms", "bathrooms", "sqft_living"] "1,1"
        = ["bedrooms", "bedrooms"]
    ∧ (build_values ["bedrooms", "bedrooms"] (fun _ => 1)).length = 1 := by
  refine ⟨?_, rfl, rfl⟩
  intro feats vals h
  have := build_values_aux vals feats [] (by simpa using h)
  simpa [build_values] using this

/-- C10 witness: a distinct two-feature list yields a row with exactly those
two columns in order. -/
theorem C10_witness :
    (build_values ["bedrooms", "bathrooms"] (fun _ => 2)).map Prod.fst
      = ["bedrooms", "bathrooms"] :=
  C10_thm.1 ["bedrooms", "bathrooms"] (fun _ => 2) (by decide)

end HousePrice
